import Mathlib

/-!
Verification development for the codechain-indexer repository.

The repository slice under verification consists of the two HTTP routers
(`src/routers/block.ts`, `src/routers/parcel.ts`) and the counter test file.
The model layer (`src/models/logic/*`), the pagination helper
(`src/routers/pagination.ts`) and the sync worker are not part of the slice;
definitions standing for them are modelled from the specification and say so
in their doc comments.  Everything else is translated directly from the
TypeScript source.
-/

namespace CodechainIndexer

/-- Categories of the per-day log counters, from `src/models/log` (`LogType`),
as referenced by the counter tests. Only the categories the claims mention are
modelled. -/
inductive LogType where
  | BLOCK_COUNT
  | PARCEL_COUNT
  | TX_COUNT
deriving DecidableEq, Repr

/-- A transaction (parcel) row of the Index Store.  Hashes are the normalized
hexadecimal strings; `txIndex` is the position inside the containing block,
used as the tiebreak ordering key of per-block transaction listings. -/
structure Transaction where
  hash : String
  blockNumber : Nat
  txIndex : Nat
  txType : String
  sender : String
deriving DecidableEq, Repr

/-- A block row of the Index Store, carrying its transactions. -/
structure Block where
  hash : String
  number : Nat
  author : String
  txs : List Transaction
deriving DecidableEq, Repr

/-- A row of the Counter Ledger (the `Logs` table): one count per
(date, category) pair; rows are created lazily on the first increment. -/
structure LogRow where
  date : String
  category : LogType
  count : Nat
deriving DecidableEq, Repr

/-- The shared mutable state: the Index Store rows (blocks with their
transactions, plus pending transactions) and the Counter Ledger rows. -/
structure IndexerState where
  blocks : List Block
  pending : List Transaction
  counters : List LogRow
deriving DecidableEq, Repr

/-- The empty store: no blocks, no pending transactions, no counter rows. -/
def initState : IndexerState := ⟨[], [], []⟩

/- ### Counter Ledger -/

/-- `LogModel.getLog date category`: the counter row for `(date, category)`,
absent when no event of that category happened on that date yet (the test file
guards its result with a truthiness check). -/
def getLogRows (d : String) (c : LogType) : List LogRow → Option LogRow
  | [] => none
  | r :: rs => if r.date = d ∧ r.category = c then some r else getLogRows d c rs

/-- Modelled from the spec: `read(date, category) → count` of the Counter
Ledger (§4.3) — the count of the matching row, and 0 when no row exists; the
operation is total, so it never raises. -/
def readCount (d : String) (c : LogType) (rows : List LogRow) : Nat :=
  match getLogRows d c rows with
  | none => 0
  | some r => r.count

/-- Modelled from the spec: `increment(date, category, delta)` of the Counter
Ledger (§4.3); the row is created lazily on the first event of a
(date, category) pair (§3). -/
def incrementRows (d : String) (c : LogType) (k : Nat) : List LogRow → List LogRow
  | [] => [⟨d, c, k⟩]
  | r :: rs =>
      if r.date = d ∧ r.category = c then ⟨r.date, r.category, r.count + k⟩ :: rs
      else r :: incrementRows d c k rs

theorem readCount_incrementRows (d d' : String) (c c' : LogType) (k : Nat)
    (rows : List LogRow) :
    readCount d c (incrementRows d' c' k rows)
      = readCount d c rows + (if d = d' ∧ c = c' then k else 0) := by
  induction rows with
  | nil =>
      by_cases h : d = d' ∧ c = c'
      · obtain ⟨h1, h2⟩ := h
        subst h1
        subst h2
        simp [incrementRows, readCount, getLogRows]
      · have h' : ¬ (d' = d ∧ c' = c) := fun hc => h ⟨hc.1.symm, hc.2.symm⟩
        simp [incrementRows, readCount, getLogRows, h, h']
  | cons r rs ih =>
      by_cases hr : r.date = d' ∧ r.category = c'
      · by_cases hq : r.date = d ∧ r.category = c
        · have hdd : d = d' := hq.1.symm.trans hr.1
          have hcc : c = c' := hq.2.symm.trans hr.2
          simp [incrementRows, hr, readCount, getLogRows, hq, hdd, hcc]
        · have hne : ¬ (d = d' ∧ c = c') := fun h =>
            hq ⟨hr.1.trans h.1.symm, hr.2.trans h.2.symm⟩
          have hq' : ¬ (d' = d ∧ c' = c) := fun h =>
            hq ⟨hr.1.trans h.1, hr.2.trans h.2⟩
          simp [incrementRows, hr, readCount, getLogRows, hq, hne, hq']
      · by_cases hq : r.date = d ∧ r.category = c
        · have hne : ¬ (d = d' ∧ c = c') := fun h =>
            hr ⟨hq.1.trans h.1, hq.2.trans h.2⟩
          simp [incrementRows, hr, readCount, getLogRows, hq, hne]
        · simpa [incrementRows, hr, readCount, getLogRows, hq] using ih

/-- State-level counter increment: only the Counter Ledger rows change. -/
def increment (d : String) (c : LogType) (k : Nat) (st : IndexerState) :
    IndexerState :=
  { st with counters := incrementRows d c k st.counters }

/-- State-level counter read. -/
def readCounter (d : String) (c : LogType) (st : IndexerState) : Nat :=
  readCount d c st.counters

/- ### Ingestion Engine -/

/-- Whether the Index Store already holds a block with the given number. -/
def hasBlockNumber (st : IndexerState) (n : Nat) : Bool :=
  st.blocks.any (fun b => b.number == n)

/-- Modelled from the spec: the per-block atomic unit of `sync()` (§4.1) —
upsert the Block row and its Transaction rows (removing matching
PendingTransaction rows), then increment `LogCounter(today, BLOCK_COUNT)` by 1
and `LogCounter(today, PARCEL_COUNT)` / `TX_COUNT` by the transaction count,
all as a single state transition. -/
def ingestBlock (today : String) (st : IndexerState) (b : Block) : IndexerState :=
  increment today LogType.TX_COUNT b.txs.length
    (increment today LogType.PARCEL_COUNT b.txs.length
      (increment today LogType.BLOCK_COUNT 1
        { st with
            blocks := b :: st.blocks
            pending :=
              st.pending.filter
                (fun p => !(b.txs.any (fun tx => tx.hash == p.hash))) }))

/-- Modelled from the spec: one step of `sync()` — an already-present block
number is recognized and skipped without incrementing counters again (§4.1
idempotence); a new block is ingested atomically. -/
def syncStep (today : String) (st : IndexerState) (b : Block) : IndexerState :=
  if hasBlockNumber st b.number then st else ingestBlock today st b

/-- Modelled from the spec: `sync()` pulls the chain blocks in increasing
number order and processes them block by block (§4.1). -/
def sync (today : String) (chain : List Block) (st : IndexerState) :
    IndexerState :=
  chain.foldl (syncStep today) st

theorem readCounter_increment (d d' : String) (c c' : LogType) (k : Nat)
    (st : IndexerState) :
    readCounter d c (increment d' c' k st)
      = readCounter d c st + (if d = d' ∧ c = c' then k else 0) :=
  readCount_incrementRows d d' c c' k st.counters

theorem blocks_increment (d : String) (c : LogType) (k : Nat)
    (st : IndexerState) : (increment d c k st).blocks = st.blocks := rfl

theorem readCounter_ingestBlock_tx (today : String) (st : IndexerState)
    (b : Block) :
    readCounter today LogType.TX_COUNT (ingestBlock today st b)
      = readCounter today LogType.TX_COUNT st + b.txs.length := by
  unfold ingestBlock
  rw [readCounter_increment, readCounter_increment, readCounter_increment]
  simp [readCounter]

theorem readCounter_ingestBlock_parcel (today : String) (st : IndexerState)
    (b : Block) :
    readCounter today LogType.PARCEL_COUNT (ingestBlock today st b)
      = readCounter today LogType.PARCEL_COUNT st + b.txs.length := by
  unfold ingestBlock
  rw [readCounter_increment, readCounter_increment, readCounter_increment]
  simp [readCounter]

theorem readCounter_ingestBlock_block (today : String) (st : IndexerState)
    (b : Block) :
    readCounter today LogType.BLOCK_COUNT (ingestBlock today st b)
      = readCounter today LogType.BLOCK_COUNT st + 1 := by
  unfold ingestBlock
  rw [readCounter_increment, readCounter_increment, readCounter_increment]
  simp [readCounter]

/-- Ingesting a block prepends its row to the Index Store. -/
theorem blocks_ingestBlock (today : String) (st : IndexerState) (b : Block) :
    (ingestBlock today st b).blocks = b :: st.blocks := rfl

theorem hasBlockNumber_syncStep_mono (today : String) (st : IndexerState)
    (b : Block) (n : Nat) (h : hasBlockNumber st n = true) :
    hasBlockNumber (syncStep today st b) n = true := by
  unfold syncStep
  split
  · exact h
  · simp only [hasBlockNumber, blocks_ingestBlock, List.any_cons]
    simp only [hasBlockNumber] at h
    simp [h]

theorem hasBlockNumber_syncStep_self (today : String) (st : IndexerState)
    (b : Block) : hasBlockNumber (syncStep today st b) b.number = true := by
  unfold syncStep
  split
  · assumption
  · simp [hasBlockNumber, blocks_ingestBlock]

theorem hasBlockNumber_sync_mono (today : String) (chain : List Block)
    (st : IndexerState) (n : Nat) (h : hasBlockNumber st n = true) :
    hasBlockNumber (sync today chain st) n = true := by
  induction chain generalizing st with
  | nil => exact h
  | cons b rest ih =>
      simpa [sync] using ih (syncStep today st b)
        (hasBlockNumber_syncStep_mono today st b n h)

theorem hasBlockNumber_sync_mem (today : String) (chain : List Block)
    (st : IndexerState) (b : Block) (hb : b ∈ chain) :
    hasBlockNumber (sync today chain st) b.number = true := by
  induction chain generalizing st with
  | nil => cases hb
  | cons c rest ih =>
      rcases List.mem_cons.mp hb with h | h
      · subst h
        simpa [sync] using hasBlockNumber_sync_mono today rest
          (syncStep today st b) b.number
          (hasBlockNumber_syncStep_self today st b)
      · simpa [sync] using ih (syncStep today st c) h

theorem sync_of_all_present (today : String) (chain : List Block)
    (st : IndexerState)
    (h : ∀ b ∈ chain, hasBlockNumber st b.number = true) :
    sync today chain st = st := by
  induction chain generalizing st with
  | nil => rfl
  | cons b rest ih =>
      have hstep : syncStep today st b = st := by
        simp [syncStep, h b (List.mem_cons_self b rest)]
      simpa [sync, hstep] using ih st fun c hc =>
        h c (List.mem_cons_of_mem b hc)

/-- The shape of every observable transition of a sync run: either nothing
changed (the block was already present) or, within the single atomic step, the
transaction and parcel counters advanced by the same amount K and the block
counter advanced by exactly 1. -/
def atomicStep (today : String) (u v : IndexerState) : Prop :=
  v = u ∨ ∃ K : Nat,
    readCounter today LogType.TX_COUNT v
        = readCounter today LogType.TX_COUNT u + K ∧
    readCounter today LogType.PARCEL_COUNT v
        = readCounter today LogType.PARCEL_COUNT u + K ∧
    readCounter today LogType.BLOCK_COUNT v
        = readCounter today LogType.BLOCK_COUNT u + 1

theorem atomicStep_syncStep (today : String) (st : IndexerState) (b : Block) :
    atomicStep today st (syncStep today st b) := by
  unfold syncStep
  split
  · exact Or.inl rfl
  · exact Or.inr ⟨b.txs.length,
      readCounter_ingestBlock_tx today st b,
      readCounter_ingestBlock_parcel today st b,
      readCounter_ingestBlock_block today st b⟩

theorem sync_trace_atomic (today : String) (chain : List Block)
    (st : IndexerState) :
    List.Chain' (atomicStep today) (List.scanl (syncStep today) st chain) := by
  induction chain generalizing st with
  | nil => simp
  | cons b rest ih =>
      have hsc : List.scanl (syncStep today) st (b :: rest)
          = st :: List.scanl (syncStep today) (syncStep today st b) rest := by
        simp [List.scanl_cons]
      rw [hsc]
      refine List.chain'_cons'.mpr ⟨?_, ih (syncStep today st b)⟩
      intro y hy
      have hhead : (List.scanl (syncStep today) (syncStep today st b)
          rest).head? = some (syncStep today st b) := by
        cases rest <;> simp [List.scanl_cons]
      rw [hhead] at hy
      cases hy
      exact atomicStep_syncStep today st b

/- ### Request-parameter parsing (JavaScript semantics used by the routers) -/

/-- Hexadecimal digit test for H256 validation. -/
def isHexDigitChar (ch : Char) : Bool :=
  ch.isDigit || ('a' ≤ ch && ch ≤ 'f') || ('A' ≤ ch && ch ≤ 'F')

/-- Leading and trailing whitespace removal over the character list (the
whitespace skipping of the JavaScript number coercions). -/
def trimChars (cs : List Char) : List Char :=
  ((cs.dropWhile Char.isWhitespace).reverse.dropWhile Char.isWhitespace).reverse

/-- Removal of a leading `0x` marker. -/
def strip0x : List Char → List Char
  | '0' :: 'x' :: rest => rest
  | cs => cs

/-- Embedding of `codechain-primitives` H256 validity (`H256.check` and the
`new H256` constructor): an optionally `0x` prefixed string of exactly 64
hexadecimal digits. -/
def isH256Str (s : String) : Bool :=
  let t := strip0x s.data
  t.length == 64 && t.all isHexDigitChar

/-- Normal form of a 256-bit hash string used for store comparisons: the
`0x` marker removed and the digits lowercased. -/
def normalizeH256 (s : String) : String :=
  String.mk ((strip0x s.data).map Char.toLower)

/-- Value of a run of decimal digits. -/
def digitsToNat (ds : List Char) : Nat :=
  ds.foldl (fun acc ch => acc * 10 + (ch.toNat - '0'.toNat)) 0

/-- Embedding of JavaScript `parseInt(s, 10)`: skip whitespace, read an
optional sign and then the leading run of decimal digits; `none` stands for
`NaN` (no digit at all). -/
def parseIntJS (s : String) : Option Int :=
  let t := trimChars s.data
  let sign : Int := if t.head? == some '-' then -1 else 1
  let u := if t.head? == some '-' || t.head? == some '+' then t.drop 1 else t
  let ds := u.takeWhile Char.isDigit
  if ds.isEmpty then none else some (sign * digitsToNat ds)

/-- Nonempty all-decimal-digit run. -/
def isDigits (cs : List Char) : Bool :=
  !(cs.isEmpty) && cs.all Char.isDigit

/-- Nonempty all-hexadecimal-digit run. -/
def isHexDigits (cs : List Char) : Bool :=
  !(cs.isEmpty) && cs.all isHexDigitChar

/-- Grouping of a character list at a separator. -/
def splitOnChar (sep : Char) : List Char → List (List Char)
  | [] => [[]]
  | ch :: rest =>
      let r := splitOnChar sep rest
      if ch == sep then [] :: r
      else
        match r with
        | [] => [[ch]]
        | g :: gs => (ch :: g) :: gs

/-- Decimal mantissa as accepted by JavaScript number coercion: digits,
`digits.digits`, `.digits` or `digits.` . -/
def isMantissa (cs : List Char) : Bool :=
  match splitOnChar '.' cs with
  | [a] => isDigits a
  | [a, b] => (isDigits a || a.isEmpty) && (isDigits b || b.isEmpty)
      && !(a.isEmpty && b.isEmpty)
  | _ => false

/-- Digits with an optional leading sign (a JavaScript exponent part). -/
def isSignedDigits (cs : List Char) : Bool :=
  let v := if cs.head? == some '-' || cs.head? == some '+' then cs.drop 1
    else cs
  isDigits v

/-- Binary digit test for ES2015 `0b` literals. -/
def isBinDigitChar (ch : Char) : Bool :=
  ch == '0' || ch == '1'

/-- Nonempty all-binary-digit run. -/
def isBinDigits (cs : List Char) : Bool :=
  !(cs.isEmpty) && cs.all isBinDigitChar

/-- Octal digit test for ES2015 `0o` literals. -/
def isOctDigitChar (ch : Char) : Bool :=
  '0' ≤ ch && ch ≤ '7'

/-- Nonempty all-octal-digit run. -/
def isOctDigits (cs : List Char) : Bool :=
  !(cs.isEmpty) && cs.all isOctDigitChar

/-- Embedding of the JavaScript `isNaN(s)` test (ES2015 `Number` coercion)
for route parameters: whitespace-only strings (coerced to 0); the unsigned
non-decimal integer literals `0x`/`0b`/`0o` (case-insensitive, never with a
sign — a signed hexadecimal such as `-0x1A` is NaN); and otherwise an
optionally signed `Infinity` or decimal literal with optional fraction and
exponent. -/
def isNumericJS (s : String) : Bool :=
  let t := trimChars s.data
  if t.isEmpty then true
  else
    let w0 := t.map Char.toLower
    if w0.take 2 == ['0', 'x'] then isHexDigits (w0.drop 2)
    else if w0.take 2 == ['0', 'b'] then isBinDigits (w0.drop 2)
    else if w0.take 2 == ['0', 'o'] then isOctDigits (w0.drop 2)
    else
      let u := if t.head? == some '-' || t.head? == some '+' then t.drop 1
        else t
      if u == "Infinity".data then true
      else
        let w := u.map Char.toLower
        match splitOnChar 'e' w with
        | [m] => isMantissa m
        | [m, ex] => isMantissa m && isSignedDigits ex
        | _ => false

/-- The `(req.query.itemsPerPage && parseInt(req.query.itemsPerPage, 10)) || 15`
idiom of `src/routers/block.ts` (lines 238-241 and 369-372): an absent
parameter, the empty string, an unparseable value and a parsed 0 are all
falsy, so the default page size 15 is used. -/
def effectiveItemsPerPage (q : Option String) : Int :=
  match q with
  | none => 15
  | some s =>
      if s.data.isEmpty then 15
      else
        match parseIntJS s with
        | none => 15
        | some n => if n = 0 then 15 else n

/-- The `req.query.x && parseInt(req.query.x, 10)` idiom without a default:
the parsed value, or `none` when the parameter is absent, empty or `NaN`. -/
def parseQueryInt (q : Option String) : Option Int :=
  match q with
  | none => none
  | some s => if s.data.isEmpty then none else parseIntJS s

/- ### Pagination Engine -/

/-- Insertion step of the descending sort by an ordering key. -/
def insertDescBy (keyFn : α → Nat) (x : α) : List α → List α
  | [] => [x]
  | y :: ys =>
      if keyFn y ≤ keyFn x then x :: y :: ys else y :: insertDescBy keyFn x ys

/-- Rows sorted descending by the ordering key (block number for the block
listing, transaction index for the per-block transaction listing). -/
def sortDescBy (keyFn : α → Nat) (l : List α) : List α :=
  l.foldr (insertDescBy keyFn) []

/-- Modelled from the spec: the keyset fetch of the model layer
(`BlockModel.getBlocks`, `TransactionModel.getTransactionsOfBlock`, absent
from the slice) — rows in ordering order, restricted to the requested side of
the cursor boundary (the cursor is the literal ordering-column value, §4.4),
limited to `limit` rows; never a row offset. -/
def fetchPage (keyFn : α → Nat) (limit : Nat) (firstK lastK : Option Nat)
    (rows : List α) : List α :=
  match firstK with
  | some k =>
      let c := rows.filter (fun x => k ≤ keyFn x)
      c.drop (c.length - limit)
  | none =>
      match lastK with
      | some k => (rows.filter (fun x => keyFn x ≤ k)).take limit
      | none => rows.take limit

/-- The value returned by `createPaginationResult` in
`src/routers/pagination.ts` (absent from the slice). -/
structure PaginationResult (α : Type) where
  data : List α
  hasNextPage : Bool
  hasPreviousPage : Bool
  nextEvaluatedKey : Option Nat
  prevEvaluatedKey : Option Nat
deriving DecidableEq, Repr

/-- Modelled from the spec: `createPaginationResult` of
`src/routers/pagination.ts` (absent from the slice), following §4.4 — the
caller fetched up to N+1 rows; at most N are returned, the presence of the
(N+1)-th row is the has-more signal and that row's key becomes the next
cursor; with a `firstEvaluatedKey` the same boundary semantics run in the
reverse direction. -/
def createPaginationResult (firstK lastK : Option Nat) (rows : List α)
    (keyFn : α → Nat) (N : Nat) : PaginationResult α :=
  match firstK with
  | some _ =>
      { data := rows.drop (rows.length - N)
        hasPreviousPage := decide (N < rows.length)
        hasNextPage := true
        prevEvaluatedKey :=
          if N < rows.length then rows.head?.map keyFn else none
        nextEvaluatedKey := (rows.drop (rows.length - N)).getLast?.map keyFn }
  | none =>
      { data := rows.take N
        hasNextPage := decide (N < rows.length)
        hasPreviousPage := lastK.isSome
        nextEvaluatedKey := rows[N]?.map keyFn
        prevEvaluatedKey := (rows.take N).head?.map keyFn }

theorem fetchPage_length_le (keyFn : α → Nat) (limit : Nat)
    (firstK lastK : Option Nat) (rows : List α) :
    (fetchPage keyFn limit firstK lastK rows).length ≤ limit := by
  unfold fetchPage
  cases firstK with
  | some k => simp only [List.length_drop]; omega
  | none =>
      cases lastK with
      | some k => simp only [List.length_take]; omega
      | none => simp only [List.length_take]; omega

theorem createPaginationResult_data_length_le (firstK lastK : Option Nat)
    (rows : List α) (keyFn : α → Nat) (N : Nat) :
    (createPaginationResult firstK lastK rows keyFn N).data.length ≤ N := by
  unfold createPaginationResult
  cases firstK with
  | some k => simp only [List.length_drop]; omega
  | none => simp only [List.length_take]; omega

theorem createPaginationResult_hasNextPage (lastK : Option Nat)
    (rows : List α) (keyFn : α → Nat) (N : Nat)
    (hlen : rows.length ≤ N + 1) :
    (createPaginationResult none lastK rows keyFn N).hasNextPage = true
      ↔ rows.length = N + 1 := by
  simp only [createPaginationResult, decide_eq_true_eq]
  omega

/- ### Query Facade: model-layer reads -/

/-- Author filter of the block listing and the block count. -/
def filterByAuthor (address : Option String) (bs : List Block) : List Block :=
  match address with
  | none => bs
  | some a => bs.filter (fun b => b.author == a)

/-- Modelled from the spec: `BlockModel.getLatestBlock` — the canonical block
of greatest number, absent on an empty store. -/
def getLatestBlock (st : IndexerState) : Option Block :=
  (sortDescBy Block.number st.blocks).head?

/-- Modelled from the spec: `BlockModel.getByHash` — by-hash lookup via the
unique hash index, absent when no row matches. -/
def getByHash (st : IndexerState) (h : String) : Option Block :=
  st.blocks.find? (fun b => b.hash == normalizeH256 h)

/-- Modelled from the spec: `BlockModel.getByNumber` — by-number lookup,
absent when no row matches (in particular for the `NaN` that a failed
`parseInt` produces, which equals no stored number). -/
def getByNumberInt (st : IndexerState) (n : Int) : Option Block :=
  st.blocks.find? (fun b => (b.number : Int) == n)

/-- Modelled from the spec: `BlockModel.getNumberOfBlocks` with the optional
author filter. -/
def getNumberOfBlocks (st : IndexerState) (address : Option String) : Nat :=
  (filterByAuthor address st.blocks).length

/-- Modelled from the spec: `BlockModel.getBlocks` — blocks ordered by number
descending, filtered by author and by the keyset cursor, limited to `limit`
rows (the handler passes `itemsPerPage + 1`). -/
def getBlocks (st : IndexerState) (address : Option String) (limit : Nat)
    (firstK lastK : Option Nat) : List Block :=
  fetchPage Block.number limit firstK lastK
    (sortDescBy Block.number (filterByAuthor address st.blocks))

/-- The transactions of the block with the given number, in listing order
(transaction index descending), empty when the block is absent. -/
def txsOfBlock (st : IndexerState) (bn : Option Nat) : List Transaction :=
  match bn with
  | none => []
  | some n =>
      match st.blocks.find? (fun b => b.number == n) with
      | none => []
      | some b => sortDescBy Transaction.txIndex b.txs

/-- Modelled from the spec: `TransactionModel.getTransactionsOfBlock` — the
per-block transaction listing restricted by the keyset cursor
(`createBlockTxEvaluatedKey` is the transaction index) and limited to
`limit` rows. -/
def getTransactionsOfBlock (st : IndexerState) (bn : Option Nat)
    (limit : Nat) (firstK lastK : Option Nat) : List Transaction :=
  fetchPage Transaction.txIndex limit firstK lastK (txsOfBlock st bn)

/-- All stored transactions in listing order: block number descending and
transaction index descending inside a block. -/
def allTxs (st : IndexerState) : List Transaction :=
  (sortDescBy Block.number st.blocks).flatMap
    (fun b => sortDescBy Transaction.txIndex b.txs)

/-- The current chain head known to the store. -/
def currentHead (st : IndexerState) : Nat :=
  st.blocks.foldl (fun acc b => max acc b.number) 0

/-- Sender filter of the parcel listings. -/
def txFilterByAddress (address : Option String) (ts : List Transaction) :
    List Transaction :=
  match address with
  | none => ts
  | some a => ts.filter (fun t => t.sender == a)

/-- Confirmation-depth filter: keep rows at depth of at least the threshold
below the current head (§4.5). -/
def confirmedFilter (st : IndexerState) (onlyConfirmed : Bool)
    (confirmThreshold : Option Int) (ts : List Transaction) :
    List Transaction :=
  if onlyConfirmed then
    ts.filter (fun t =>
      (t.blockNumber : Int) ≤ (currentHead st : Int)
        - confirmThreshold.getD 0)
  else ts

/-- Modelled from the spec: `TransactionModel.getTransactions` as called by
the `/parcel` route — the offset-based pagination of the original routing
layer (§9): a page number and a page size, with defaults 1 and 15, turned
into a row offset. -/
def getTransactions (st : IndexerState) (address : Option String)
    (page itemsPerPage : Option Int) (onlyConfirmed : Bool)
    (confirmThreshold : Option Int) : List Transaction :=
  let rows := confirmedFilter st onlyConfirmed confirmThreshold
    (txFilterByAddress address (allTxs st))
  let N := (itemsPerPage.getD 15).toNat
  let p := (page.getD 1).toNat
  (rows.drop ((p - 1) * N)).take N

/-- Modelled from the spec: `TransactionModel.getNumberOfTransactions`. -/
def getNumberOfTransactions (st : IndexerState) (address : Option String)
    (onlyConfirmed : Bool) (confirmThreshold : Option Int) : Nat :=
  (confirmedFilter st onlyConfirmed confirmThreshold
    (txFilterByAddress address (allTxs st))).length

/-- Modelled from the spec: `TransactionModel.getByHash` for parcels —
by-hash lookup, absent when no row matches. -/
def getTxByHash (st : IndexerState) (h : String) : Option Transaction :=
  (allTxs st).find? (fun t => t.hash == normalizeH256 h)

/-- Modelled from the spec: `TransactionModel.getPendingTransactions`. -/
def getPendingTransactions (st : IndexerState) (address : Option String) :
    List Transaction :=
  txFilterByAddress address st.pending

/-- Modelled from the spec: `TransactionModel.getNumberOfPendingTransactions`. -/
def getNumberOfPendingTransactions (st : IndexerState)
    (address : Option String) : Nat :=
  (txFilterByAddress address st.pending).length

/-- Modelled from the spec: `TransactionModel.getNumberOfEachTransactionType`
— per-type tallies of the transactions of one block. -/
def txTypeCounts (st : IndexerState) (bn : Option Nat) :
    List (String × Nat) :=
  let ts := txsOfBlock st bn
  (ts.map Transaction.txType).eraseDups.map
    (fun ty => (ty, (ts.filter (fun t => t.txType == ty)).length))

/- ### Routers (src/routers/block.ts, src/routers/parcel.ts) -/

/-- The JSON value a route handler sends. -/
inductive Response where
  | jsonNull
  | jsonBlock (b : Block)
  | jsonTx (t : Transaction)
  | jsonNum (n : Nat)
  | blockPage (p : PaginationResult Block)
  | txPage (p : PaginationResult Transaction)
  | txList (ts : List Transaction)
  | typeCounts (cs : List (String × Nat))
  | jsonError
deriving DecidableEq, Repr

/-- Modelled from the spec: the `syncIfNeeded` middleware — when the sync
flag is set the request waits until the ingestion worker has caught up (§5
wait-for-sync); all mutation is funneled exclusively through the Ingestion
Engine (single-writer discipline), so waiting does not itself change the
stores. -/
def waitForSync (_syncFlag : Option Bool) (st : IndexerState) :
    IndexerState :=
  st

/-- `GET /block` (src/routers/block.ts lines 356-399): parse `itemsPerPage`
with default 15, fetch `itemsPerPage + 1` rows through the model layer and
wrap them with `createPaginationResult`. -/
def blockListPage (st : IndexerState) (address : Option String)
    (itemsPerPage : Option String) (firstK lastK : Option Nat) :
    PaginationResult Block :=
  let n := (effectiveItemsPerPage itemsPerPage).toNat
  let blocks := getBlocks st address (n + 1) firstK lastK
  createPaginationResult firstK lastK blocks Block.number n

/-- The block-number resolution of `GET /block/:hashOrNumber/tx`
(src/routers/block.ts lines 246-251): a valid hash that matches a stored
block yields that block's number; otherwise the raw path parameter is used as
a number. -/
def resolvedBlockNumber (st : IndexerState) (s : String) : Option Nat :=
  match (if isH256Str s then getByHash st s else none) with
  | some b => some b.number
  | none =>
      (parseIntJS s).bind (fun i => if 0 ≤ i then some i.toNat else none)

/-- `GET /block/:hashOrNumber/tx` (src/routers/block.ts lines 226-271):
parse `itemsPerPage` with default 15, fetch `itemsPerPage + 1` transactions
of the block and wrap them with `createPaginationResult`. -/
def blockTxPage (st : IndexerState) (hashOrNumber : String)
    (itemsPerPage : Option String) (firstK lastK : Option Nat) :
    PaginationResult Transaction :=
  let n := (effectiveItemsPerPage itemsPerPage).toNat
  let txs := getTransactionsOfBlock st (resolvedBlockNumber st hashOrNumber)
    (n + 1) firstK lastK
  createPaginationResult firstK lastK txs Transaction.txIndex n

/-- `GET /block/:hashOrNumber` (src/routers/block.ts lines 153-189): try the
parameter as an H256 first; on failure fall back to the `isNaN` check and
`parseInt`; respond with the row when one matches and with `null` otherwise
— a parameter that is neither is swallowed, not an error. -/
def blockByHashOrNumberResp (st : IndexerState) (s : String) : Response :=
  if isH256Str s then
    match getByHash st s with
    | some b => Response.jsonBlock b
    | none => Response.jsonNull
  else if isNumericJS s then
    match (parseIntJS s).bind (fun i => getByNumberInt st i) with
    | some b => Response.jsonBlock b
    | none => Response.jsonNull
  else Response.jsonNull

/-- `GET /parcel/:hash` (src/routers/parcel.ts lines 151-160): `new H256`
throws on a malformed hash, reaching the error path; a well-formed hash with
no matching row responds `null`. -/
def parcelByHashResp (st : IndexerState) (s : String) : Response :=
  if isH256Str s then
    match getTxByHash st s with
    | some t => Response.jsonTx t
    | none => Response.jsonNull
  else Response.jsonError

/-- The requests the two routers register, with the query parameters each
handler body reads. -/
inductive Request where
  | blockLatest (syncFlag : Option Bool)
  | blockCount (address : Option String) (syncFlag : Option Bool)
  | blockByHashOrNumber (hashOrNumber : String) (syncFlag : Option Bool)
  | blockTxList (hashOrNumber : String) (itemsPerPage : Option String)
      (firstK lastK : Option Nat)
  | blockTxCountTypes (blockNumber : String)
  | blockList (address : Option String) (itemsPerPage : Option String)
      (firstK lastK : Option Nat) (syncFlag : Option Bool)
  | parcelList (address : Option String) (page : Option String)
      (itemsPerPage : Option String) (onlyConfirmed : Option String)
      (confirmThreshold : Option String)
  | parcelCount (address : Option String) (onlyConfirmed : Option String)
      (confirmThreshold : Option String)
  | parcelByHash (hash : String)
  | pendingParcelList (address : Option String)
  | pendingParcelCount (address : Option String)
deriving DecidableEq, Repr

/-- Dispatch of every handler registered in the block and parcel routers,
threading the store state so that the effect of handling a request is
explicit: each branch reads through the Query Facade and returns the state it
was given. -/
def handleRequest (st : IndexerState) (r : Request) :
    Response × IndexerState :=
  match r with
  | Request.blockLatest syncFlag =>
      let st1 := waitForSync syncFlag st
      (match getLatestBlock st1 with
        | some b => Response.jsonBlock b
        | none => Response.jsonNull, st1)
  | Request.blockCount address syncFlag =>
      let st1 := waitForSync syncFlag st
      (Response.jsonNum (getNumberOfBlocks st1 address), st1)
  | Request.blockByHashOrNumber s syncFlag =>
      let st1 := waitForSync syncFlag st
      (blockByHashOrNumberResp st1 s, st1)
  | Request.blockTxList s itemsPerPage firstK lastK =>
      (Response.txPage (blockTxPage st s itemsPerPage firstK lastK), st)
  | Request.blockTxCountTypes s =>
      (Response.typeCounts
        (txTypeCounts st
          ((parseIntJS s).bind
            (fun i => if 0 ≤ i then some i.toNat else none))), st)
  | Request.blockList address itemsPerPage firstK lastK syncFlag =>
      let st1 := waitForSync syncFlag st
      (Response.blockPage (blockListPage st1 address itemsPerPage firstK
        lastK), st1)
  | Request.parcelList address page itemsPerPage onlyConfirmed
      confirmThreshold =>
      (Response.txList (getTransactions st address (parseQueryInt page)
        (parseQueryInt itemsPerPage) (onlyConfirmed == some "true")
        (parseQueryInt confirmThreshold)), st)
  | Request.parcelCount address onlyConfirmed confirmThreshold =>
      (Response.jsonNum (getNumberOfTransactions st address
        (onlyConfirmed == some "true") (parseQueryInt confirmThreshold)), st)
  | Request.parcelByHash s => (parcelByHashResp st s, st)
  | Request.pendingParcelList address =>
      (Response.txList (getPendingTransactions st address), st)
  | Request.pendingParcelCount address =>
      (Response.jsonNum (getNumberOfPendingTransactions st address), st)

/- ### Endpoint query-parameter surface -/

/-- The routes the two routers register. -/
inductive Endpoint where
  | blockLatest
  | blockCount
  | blockByHashOrNumber
  | blockTxList
  | blockTxCountTypes
  | blockList
  | parcelList
  | parcelCount
  | parcelByHash
  | pendingParcelList
  | pendingParcelCount
deriving DecidableEq, Repr

/-- The query parameters each route's handler body reads, transcribed from
src/routers/block.ts (lines 118, 237-243, 368-374) and src/routers/parcel.ts
(lines 66-74, 120-125, 183, 219). -/
def queryParamsRead : Endpoint → List String
  | Endpoint.blockLatest => []
  | Endpoint.blockCount => ["address"]
  | Endpoint.blockByHashOrNumber => []
  | Endpoint.blockTxList =>
      ["itemsPerPage", "firstEvaluatedKey", "lastEvaluatedKey"]
  | Endpoint.blockTxCountTypes => []
  | Endpoint.blockList =>
      ["address", "itemsPerPage", "lastEvaluatedKey", "firstEvaluatedKey"]
  | Endpoint.parcelList =>
      ["address", "page", "itemsPerPage", "onlyConfirmed", "confirmThreshold"]
  | Endpoint.parcelCount => ["address", "onlyConfirmed", "confirmThreshold"]
  | Endpoint.parcelByHash => []
  | Endpoint.pendingParcelList => ["address"]
  | Endpoint.pendingParcelCount => ["address"]

/-- A paginated listing endpoint: one whose handler reads `itemsPerPage`. -/
def isPaginatedListing (e : Endpoint) : Bool :=
  (queryParamsRead e).contains "itemsPerPage"

/- ### Concrete sample data used by witnesses and scenarios -/

/-- A block numbered 1 with one transaction. -/
def c4Block1 : Block :=
  ⟨"01", 1, "alice", [⟨"t1", 1, 0, "payment", "alice"⟩]⟩

/-- A block numbered 2 with two transactions. -/
def c4Block2 : Block :=
  ⟨"02", 2, "bob",
    [⟨"t2", 2, 0, "payment", "bob"⟩, ⟨"t3", 2, 1, "transfer", "bob"⟩]⟩

/-- The store after ingesting the two sample blocks into an empty store. -/
def c4State : IndexerState :=
  sync "2019-02-21" [c4Block1, c4Block2] initState

/-- A well-formed 256-bit hash string (64 hexadecimal digits). -/
def sampleHash : String :=
  "aaaaaaaaaaaaaaaaaaaaaaaaaaaaaaaaaaaaaaaaaaaaaaaaaaaaaaaaaaaaaaaa"

/- ### Claims -/

/-- C1: for every paginated listing request with page size N (the `/block`
listing and the `/block/:hashOrNumber/tx` listing), the pagination engine
fetches N+1 rows internally (the model-layer fetch is called with limit
N+1 and yields at most N+1 rows), returns at most N items to the caller,
and — in forward pagination — signals a next page exactly when the
(N+1)-th row is present, taking that row's key as the next cursor. -/
theorem c1_pagination_overfetch_signal (st : IndexerState)
    (address : Option String) (itemsPerPage : Option String)
    (hashOrNumber : String) (firstK lastK : Option Nat) (n : Nat)
    (hn : n = (effectiveItemsPerPage itemsPerPage).toNat) :
    (getBlocks st address (n + 1) firstK lastK).length ≤ n + 1 ∧
    (blockListPage st address itemsPerPage firstK lastK).data.length ≤ n ∧
    (firstK = none →
      ((blockListPage st address itemsPerPage firstK lastK).hasNextPage = true
        ↔ (getBlocks st address (n + 1) firstK lastK).length = n + 1)) ∧
    (firstK = none →
      (blockListPage st address itemsPerPage firstK lastK).nextEvaluatedKey
        = ((getBlocks st address (n + 1) firstK lastK)[n]?).map
            Block.number) ∧
    (getTransactionsOfBlock st (resolvedBlockNumber st hashOrNumber) (n + 1)
        firstK lastK).length ≤ n + 1 ∧
    (blockTxPage st hashOrNumber itemsPerPage firstK lastK).data.length
        ≤ n ∧
    (firstK = none →
      ((blockTxPage st hashOrNumber itemsPerPage firstK lastK).hasNextPage
          = true
        ↔ (getTransactionsOfBlock st (resolvedBlockNumber st hashOrNumber)
            (n + 1) firstK lastK).length = n + 1)) ∧
    (firstK = none →
      (blockTxPage st hashOrNumber itemsPerPage firstK lastK).nextEvaluatedKey
        = ((getTransactionsOfBlock st (resolvedBlockNumber st hashOrNumber)
            (n + 1) firstK lastK)[n]?).map Transaction.txIndex) := by
  subst hn
  refine ⟨fetchPage_length_le _ _ _ _ _,
    createPaginationResult_data_length_le _ _ _ _ _, ?_, ?_,
    fetchPage_length_le _ _ _ _ _,
    createPaginationResult_data_length_le _ _ _ _ _, ?_, ?_⟩
  · intro hf
    subst hf
    exact createPaginationResult_hasNextPage _ _ _ _
      (fetchPage_length_le _ _ _ _ _)
  · intro hf
    subst hf
    rfl
  · intro hf
    subst hf
    exact createPaginationResult_hasNextPage _ _ _ _
      (fetchPage_length_le _ _ _ _ _)
  · intro hf
    subst hf
    rfl

/-- Witness for C1 at a concrete store and query (page size 1, forward). -/
theorem c1_pagination_overfetch_signal_witness :
    ((blockListPage c4State none (some "1") none none).hasNextPage = true
      ↔ (getBlocks c4State none 2 none none).length = 2) ∧
    ((blockTxPage c4State "2" (some "1") none none).hasNextPage = true
      ↔ (getTransactionsOfBlock c4State (resolvedBlockNumber c4State "2") 2
          none none).length = 2) :=
  ⟨(c1_pagination_overfetch_signal c4State none (some "1") "2" none none 1
      (by decide)).2.2.1 rfl,
   (c1_pagination_overfetch_signal c4State none (some "1") "2" none none 1
      (by decide)).2.2.2.2.2.2.1 rfl⟩

/-- C2: ingesting one block with K transactions into a store that does not
yet hold that block number increases `LogCounter(date, TX_COUNT)` by exactly
K and `LogCounter(date, BLOCK_COUNT)` by exactly 1 (and `PARCEL_COUNT` by
K); moreover the per-block ingestion is one state transition, so along the
observable states of any sync run every transition either changes none of
these counters or advances the transaction and parcel counters by the same
amount together with a block-counter advance of exactly 1 — no observer sees
one increment without the other. -/
theorem c2_counter_atomic_increments (today : String) (st : IndexerState)
    (b : Block) (h : hasBlockNumber st b.number = false) :
    readCounter today LogType.TX_COUNT (syncStep today st b)
        = readCounter today LogType.TX_COUNT st + b.txs.length ∧
    readCounter today LogType.BLOCK_COUNT (syncStep today st b)
        = readCounter today LogType.BLOCK_COUNT st + 1 ∧
    readCounter today LogType.PARCEL_COUNT (syncStep today st b)
        = readCounter today LogType.PARCEL_COUNT st + b.txs.length ∧
    ∀ (chain : List Block) (s : IndexerState),
      List.Chain' (atomicStep today)
        (List.scanl (syncStep today) s chain) := by
  have hs : syncStep today st b = ingestBlock today st b := by
    simp [syncStep, h]
  exact ⟨by rw [hs]; exact readCounter_ingestBlock_tx today st b,
    by rw [hs]; exact readCounter_ingestBlock_block today st b,
    by rw [hs]; exact readCounter_ingestBlock_parcel today st b,
    fun chain s => sync_trace_atomic today chain s⟩

/-- Witness for C2 at a concrete empty store and a block with one
transaction. -/
theorem c2_counter_atomic_increments_witness :
    readCounter "2019-02-21" LogType.TX_COUNT
        (syncStep "2019-02-21" initState c4Block1)
      = readCounter "2019-02-21" LogType.TX_COUNT initState
          + c4Block1.txs.length :=
  (c2_counter_atomic_increments "2019-02-21" initState c4Block1
    (by decide)).1

/-- C3: running `sync` a second time over chain state that is already fully
reflected in the Index Store leaves everything unchanged — already-present
block numbers are recognized and skipped, so neither the store nor any
counter moves. -/
theorem c3_sync_idempotent (today : String) (chain : List Block)
    (st : IndexerState) :
    sync today chain (sync today chain st) = sync today chain st :=
  sync_of_all_present today chain (sync today chain st)
    (fun b hb => hasBlockNumber_sync_mem today chain st b hb)

/-- C4: after ingesting exactly two blocks — the first with 1 transaction,
the second with 2 — the counters read BLOCK_COUNT=2, TX_COUNT=3 and
PARCEL_COUNT=3; `/block` with `itemsPerPage=1` yields block 2 and the cursor
1, querying again through that returned cursor yields block 1 with no
further page, and `/block/count` returns 2. -/
theorem c4_two_block_scenario :
    readCounter "2019-02-21" LogType.BLOCK_COUNT c4State = 2 ∧
    readCounter "2019-02-21" LogType.TX_COUNT c4State = 3 ∧
    readCounter "2019-02-21" LogType.PARCEL_COUNT c4State = 3 ∧
    (blockListPage c4State none (some "1") none none).data.map Block.number
      = [2] ∧
    (blockListPage c4State none (some "1") none none).nextEvaluatedKey
      = some 1 ∧
    (blockListPage c4State none (some "1") none
      ((blockListPage c4State none (some "1") none
        none).nextEvaluatedKey)).data.map Block.number = [1] ∧
    (blockListPage c4State none (some "1") none
      ((blockListPage c4State none (some "1") none
        none).nextEvaluatedKey)).hasNextPage = false ∧
    handleRequest c4State (Request.blockCount none none)
      = (Response.jsonNum 2, c4State) := by
  decide

/-- C5 counterexample: the `/parcel` listing is paginated (it reads
`itemsPerPage`) yet reads the row-offset parameter `page` and reads neither
`firstEvaluatedKey` nor `lastEvaluatedKey`, so not every paginated listing
endpoint is cursor-keyed. -/
theorem c5_counterexample :
    isPaginatedListing Endpoint.parcelList = true ∧
    "page" ∈ queryParamsRead Endpoint.parcelList ∧
    "firstEvaluatedKey" ∉ queryParamsRead Endpoint.parcelList ∧
    "lastEvaluatedKey" ∉ queryParamsRead Endpoint.parcelList := by
  decide

/-- C5 amended: every paginated listing endpoint other than the parcel
router's `/parcel` (namely `/block` and `/block/:hashOrNumber/tx`) accepts
`itemsPerPage`, `firstEvaluatedKey` and `lastEvaluatedKey` and accepts no
row-offset/page-number parameter. -/
theorem c5_block_listings_cursor_keyed (e : Endpoint)
    (hp : isPaginatedListing e = true) (hne : e ≠ Endpoint.parcelList) :
    "itemsPerPage" ∈ queryParamsRead e ∧
    "firstEvaluatedKey" ∈ queryParamsRead e ∧
    "lastEvaluatedKey" ∈ queryParamsRead e ∧
    "page" ∉ queryParamsRead e := by
  cases e <;> first
    | exact absurd rfl hne
    | (revert hp; decide)

/-- Witness for the amended C5 at the `/block` listing. -/
theorem c5_block_listings_cursor_keyed_witness :
    "itemsPerPage" ∈ queryParamsRead Endpoint.blockList ∧
    "firstEvaluatedKey" ∈ queryParamsRead Endpoint.blockList ∧
    "lastEvaluatedKey" ∈ queryParamsRead Endpoint.blockList ∧
    "page" ∉ queryParamsRead Endpoint.blockList :=
  c5_block_listings_cursor_keyed Endpoint.blockList (by decide) (by decide)

/-- C6: handling any read request registered in the block and parcel routers
returns the store state it was given — no query operation writes to the
Index Store or the Counter Ledger. -/
theorem c6_handlers_read_only (st : IndexerState) (r : Request) :
    (handleRequest st r).2 = st := by
  cases r <;> rfl

/-- C7: every lookup by hash or number that matches no stored row — block by
hash, block by number, parcel by hash — responds with the absent value
(`null`), not with an error. -/
theorem c7_lookup_miss_absent (st : IndexerState) (s : String) :
    (isH256Str s = true → getByHash st s = none →
      blockByHashOrNumberResp st s = Response.jsonNull) ∧
    (isH256Str s = false →
      (parseIntJS s).bind (fun i => getByNumberInt st i) = none →
      blockByHashOrNumberResp st s = Response.jsonNull) ∧
    (isH256Str s = true → getTxByHash st s = none →
      parcelByHashResp st s = Response.jsonNull) := by
  refine ⟨?_, ?_, ?_⟩
  · intro h1 h2
    simp [blockByHashOrNumberResp, h1, h2]
  · intro h1 h2
    by_cases hnum : isNumericJS s <;>
      simp [blockByHashOrNumberResp, h1, h2, hnum]
  · intro h1 h2
    simp [parcelByHashResp, h1, h2]

/-- Witness for C7 at the empty store, with a well-formed hash and the
number 7, none of which matches a row. -/
theorem c7_lookup_miss_absent_witness :
    blockByHashOrNumberResp initState sampleHash = Response.jsonNull ∧
    blockByHashOrNumberResp initState "7" = Response.jsonNull ∧
    parcelByHashResp initState sampleHash = Response.jsonNull :=
  ⟨(c7_lookup_miss_absent initState sampleHash).1 (by decide) (by decide),
   (c7_lookup_miss_absent initState "7").2.1 (by decide) (by decide),
   (c7_lookup_miss_absent initState sampleHash).2.2 (by decide)
     (by decide)⟩

/-- C8: reading a counter for a (date, category) pair with no stored row
yields the count 0; the read is total, so it never raises. -/
theorem c8_missing_counter_reads_zero (d : String) (c : LogType)
    (rows : List LogRow) (h : getLogRows d c rows = none) :
    readCount d c rows = 0 := by
  simp [readCount, h]

/-- Witness for C8 at the empty Counter Ledger. -/
theorem c8_missing_counter_reads_zero_witness :
    getLogRows "2019-02-21" LogType.BLOCK_COUNT [] = none ∧
    readCount "2019-02-21" LogType.BLOCK_COUNT [] = 0 :=
  ⟨rfl, c8_missing_counter_reads_zero "2019-02-21" LogType.BLOCK_COUNT []
    rfl⟩

/-- C9: a request to `/block/:hashOrNumber` whose path parameter is neither
a valid 256-bit hash nor parseable as a number responds with `null`; the
handler swallows the failed hash parse instead of rejecting the request. -/
theorem c9_unparseable_param_null (st : IndexerState) (s : String)
    (h1 : isH256Str s = false) (h2 : isNumericJS s = false) :
    handleRequest st (Request.blockByHashOrNumber s none)
      = (Response.jsonNull, st) := by
  simp [handleRequest, waitForSync, blockByHashOrNumberResp, h1, h2]

/-- Witness for C9 at the parameter `zzz`. -/
theorem c9_unparseable_param_null_witness :
    handleRequest initState (Request.blockByHashOrNumber "zzz" none)
      = (Response.jsonNull, initState) :=
  c9_unparseable_param_null initState "zzz" (by decide) (by decide)

/-- C10: when `itemsPerPage` is absent or parses to 0 the page size used by
the `/block` and `/block/:hashOrNumber/tx` listings is 15 — both handlers
then fetch 16 rows and paginate with N = 15. -/
theorem c10_default_page_size (q : Option String) (st : IndexerState)
    (address : Option String) (hashOrNumber : String)
    (firstK lastK : Option Nat)
    (h : q = none ∨ ∃ s, q = some s ∧ parseIntJS s = some 0) :
    effectiveItemsPerPage q = 15 ∧
    blockListPage st address q firstK lastK
      = createPaginationResult firstK lastK
          (getBlocks st address 16 firstK lastK) Block.number 15 ∧
    blockTxPage st hashOrNumber q firstK lastK
      = createPaginationResult firstK lastK
          (getTransactionsOfBlock st (resolvedBlockNumber st hashOrNumber)
            16 firstK lastK) Transaction.txIndex 15 := by
  have h15 : effectiveItemsPerPage q = 15 := by
    rcases h with h | ⟨s, rfl, hs⟩
    · subst h
      rfl
    · by_cases he : s.data.isEmpty <;> simp [effectiveItemsPerPage, he, hs]
  refine ⟨h15, ?_, ?_⟩
  · simp only [blockListPage, h15]
    rfl
  · simp only [blockTxPage, h15]
    rfl

/-- Witness for C10 at an absent parameter and at the literal `0`. -/
theorem c10_default_page_size_witness :
    effectiveItemsPerPage (some "0") = 15 ∧ effectiveItemsPerPage none = 15 :=
  ⟨(c10_default_page_size (some "0") initState none "1" none none
      (Or.inr ⟨"0", rfl, by decide⟩)).1,
   (c10_default_page_size none initState none "1" none none (Or.inl rfl)).1⟩

end CodechainIndexer
